import Mathlib

/-!
# Verification of the ThemeManager of `script.js`

Shallow embedding of the theme-state controller (`class ThemeManager` in
`src/script.js`) of the portfolio-website repository, together with proofs
of the spec's claims about it.

Modelling conventions:
* Theme values are JavaScript strings (`String`), not an enumeration,
  because the source stores and compares raw strings.
* The browser state touched by `ThemeManager` is collected in one record
  `MState`: the in-memory `currentTheme` field, the `data-theme` attribute
  of the document root, the localStorage slot under key `"theme"` together
  with a flag saying whether storage access is available (access to a
  denied/unavailable `localStorage` throws in the browser), the
  `#darkModeToggle` element (presence, `checked`, `aria-label`), the
  `.theme-toggle-label` element used only by the cosmetic toggle
  animation, and the current `(prefers-color-scheme: dark)` media value.
* Operations that can throw in JavaScript (storage access when storage is
  denied, property access on a `null` element) are embedded in
  `Except JsError`. Operations that only read state return values without
  a new state, which makes their freedom from side effects a fact of the
  type.
* Purely cosmetic DOM work (the ripple element, transform styles, timer
  cleanups) is not part of the observable state; `addToggleAnimation` is
  modelled as the identity on `MState` except that, as in the source, it
  dereferences `.theme-toggle-label` and hence throws when that element
  is absent.
-/

/-- Errors a ThemeManager operation can throw: `securityError` for access
to unavailable/denied `localStorage`, `typeError` for a property access on
a `null` DOM element. -/
inductive JsError where
  | securityError
  | typeError
deriving DecidableEq, Repr

/-- The browser state observed and mutated by `ThemeManager`. -/
structure MState where
  /-- `this.currentTheme`. -/
  currentTheme : String
  /-- The `data-theme` attribute on `document.documentElement`
  (`none` = attribute absent). -/
  dataTheme : Option String
  /-- Whether `localStorage` access is available (when it is not, any
  read or write throws). -/
  storageAvailable : Bool
  /-- The value stored under key `"theme"` (`none` = key absent). -/
  storedTheme : Option String
  /-- Whether `document.getElementById('darkModeToggle')` found an
  element. -/
  togglePresent : Bool
  /-- `darkModeToggle.checked`. -/
  toggleChecked : Bool
  /-- The `aria-label` attribute of the toggle (`none` = absent). -/
  toggleAriaLabel : Option String
  /-- Whether `document.querySelector('.theme-toggle-label')` found an
  element (used only by the cosmetic toggle animation). -/
  labelPresent : Bool
  /-- The current value of `window.matchMedia('(prefers-color-scheme:
  dark)').matches`. -/
  osPrefersDark : Bool
deriving DecidableEq, Repr

/-- JavaScript truthiness of a `string | null` value: `null` and the empty
string are falsy, every other string is truthy. -/
def jsTruthy : Option String → Bool
  | none => false
  | some v => !(v = "")

/-- JavaScript `a || b` for `a : string | null`, `b : string`: returns `a`
when `a` is truthy, otherwise `b`. -/
def jsOr (a : Option String) (b : String) : String :=
  match a with
  | some v => if v = "" then b else v
  | none => b

/-- `localStorage.getItem('theme')`: throws when storage is unavailable,
otherwise returns the stored value or `null`. Embeds
`ThemeManager.getStoredTheme` (which is exactly this call). -/
def getStoredTheme (s : MState) : Except JsError (Option String) :=
  if s.storageAvailable then .ok s.storedTheme else .error .securityError

/-- `localStorage.setItem('theme', v)`: throws when storage is
unavailable, otherwise overwrites the slot. -/
def storageSetItem (v : String) (s : MState) : Except JsError MState :=
  if s.storageAvailable then .ok { s with storedTheme := some v }
  else .error .securityError

/-- `ThemeManager.getPreferredTheme`: `'dark'` when the media query
matches, else `'light'`. -/
def getPreferredTheme (s : MState) : String :=
  if s.osPrefersDark then "dark" else "light"

/-- `ThemeManager.updateToggleState`: sets `darkModeToggle.checked` and
its `aria-label` from `this.currentTheme`. `darkModeToggle` is the global
`document.getElementById('darkModeToggle')`; when that element is absent
the assignment `darkModeToggle.checked = ...` is a property access on
`null` and throws a TypeError. -/
def updateToggleState (s : MState) : Except JsError MState :=
  if s.togglePresent then
    if s.currentTheme = "dark" then
      .ok { s with toggleChecked := true,
                   toggleAriaLabel := some "Switch to light mode" }
    else
      .ok { s with toggleChecked := false,
                   toggleAriaLabel := some "Switch to dark mode" }
  else .error .typeError

/-- `ThemeManager.setTheme` (the spec's `applyTheme`): sets the
`data-theme` attribute, writes the theme to storage, updates
`this.currentTheme`, then synchronizes the toggle widget. The attribute
write precedes the storage write, so a storage throw leaves the attribute
already set but the rest unchanged; the embedding in `Except` keeps only
the error in that case. -/
def setTheme (theme : String) (s : MState) : Except JsError MState :=
  let s1 := { s with dataTheme := some theme }
  match storageSetItem theme s1 with
  | .error e => .error e
  | .ok s2 => updateToggleState { s2 with currentTheme := theme }

/-- The new theme computed by `ThemeManager.toggleTheme`:
`currentTheme === 'dark' ? 'light' : 'dark'`. -/
def nextTheme (v : String) : String :=
  if v = "dark" then "light" else "dark"

/-- `ThemeManager.addToggleAnimation`: purely cosmetic (scale pulse and
ripple element with timed cleanup), so it is the identity on the
observable state, but it dereferences
`document.querySelector('.theme-toggle-label')` and throws when that
element is absent. -/
def addToggleAnimation (s : MState) : Except JsError MState :=
  if s.labelPresent then .ok s else .error .typeError

/-- `ThemeManager.toggleTheme`: applies the opposite theme, then runs the
cosmetic animation. -/
def toggleTheme (s : MState) : Except JsError MState :=
  match setTheme (nextTheme s.currentTheme) s with
  | .error e => .error e
  | .ok s1 => addToggleAnimation s1

/-- The initial-theme resolution performed by the constructor expression
`this.getStoredTheme() || this.getPreferredTheme()`, as a function of the
stored value and the OS preference (the spec's `resolveInitialTheme`).
Both reads are side-effect free; the resolution itself is a pure
function. -/
def resolveInitialTheme (stored : Option String) (osPrefersDark : Bool) :
    String :=
  jsOr stored (if osPrefersDark then "dark" else "light")

/-- The media-query change listener installed by `ThemeManager.init`:
on an event with `e.matches = matches` it applies the corresponding theme,
but only when `!this.getStoredTheme()` — i.e. when the stored value is
absent or falsy. A storage throw propagates out of the handler. -/
def mediaChangeHandler (m : Bool) (s : MState) :
    Except JsError MState :=
  match getStoredTheme s with
  | .error e => .error e
  | .ok stored =>
      if jsTruthy stored then .ok s
      else setTheme (if m then "dark" else "light") s

/-- `new ThemeManager()`: the constructor resolves the initial theme from
the stored value (a throwing read propagates) and the OS preference, then
`init()` applies it via `setTheme` and installs the listeners (the
listeners themselves are modelled by the event step below). -/
def themeManagerNew (s : MState) : Except JsError MState :=
  match getStoredTheme s with
  | .error e => .error e
  | .ok stored =>
      let current := resolveInitialTheme stored s.osPrefersDark
      setTheme current { s with currentTheme := current }

/-- The observable state after a successful `setTheme v s`
(characterization used by the proofs, not a source function). -/
def themedState (v : String) (s : MState) : MState :=
  { s with dataTheme := some v, storedTheme := some v, currentTheme := v,
           toggleChecked := if v = "dark" then true else false,
           toggleAriaLabel :=
             some (if v = "dark" then "Switch to light mode"
                   else "Switch to dark mode") }

/-- The discrete events that can reach `ThemeManager` after
initialization: a user toggle (the `change` listener) and an OS
color-scheme change carrying the new `matches` value. -/
inductive Event where
  | toggle
  | osChange (m : Bool)
deriving DecidableEq, Repr

/-- One event dispatch. An OS change first makes the media query report
the new value, then runs the installed listener. -/
def step : Event → MState → Except JsError MState
  | .toggle, s => toggleTheme s
  | .osChange b, s => mediaChangeHandler b { s with osPrefersDark := b }

/-- Run-to-completion dispatch of a sequence of events. -/
def runEvents : List Event → MState → Except JsError MState
  | [], s => .ok s
  | e :: es, s =>
      match step e s with
      | .error err => .error err
      | .ok s1 => runEvents es s1

/-- A state in which storage is available and holds a truthy (non-null,
non-empty) value: exactly the condition under which the media-change
listener skips its `setTheme` call. -/
def GoodStore (s : MState) : Prop :=
  s.storageAvailable = true ∧ jsTruthy s.storedTheme = true

instance (s : MState) : Decidable (GoodStore s) := by
  unfold GoodStore; infer_instance

instance {ε α : Type} [DecidableEq ε] [DecidableEq α] :
    DecidableEq (Except ε α) := fun a b =>
  match a, b with
  | .error e1, .error e2 =>
      if h : e1 = e2 then .isTrue (by rw [h])
      else .isFalse (fun hc => h (Except.error.inj hc))
  | .error _, .ok _ => .isFalse (fun hc => Except.noConfusion hc)
  | .ok _, .error _ => .isFalse (fun hc => Except.noConfusion hc)
  | .ok a1, .ok a2 =>
      if h : a1 = a2 then .isTrue (by rw [h])
      else .isFalse (fun hc => h (Except.ok.inj hc))

/-- A concrete page-load state: no stored theme, OS prefers light, all
DOM elements present, storage available. -/
def baseState : MState :=
  { currentTheme := "light", dataTheme := none, storageAvailable := true,
    storedTheme := none, togglePresent := true, toggleChecked := false,
    toggleAriaLabel := none, labelPresent := true, osPrefersDark := false }

lemma setTheme_spec (v : String) (s : MState)
    (hsa : s.storageAvailable = true) (htp : s.togglePresent = true) :
    setTheme v s = .ok (themedState v s) := by
  unfold setTheme storageSetItem updateToggleState themedState
  by_cases hv : v = "dark" <;> simp [hsa, htp, hv]

lemma setTheme_ok_flags {v : String} {s s' : MState}
    (h : setTheme v s = .ok s') :
    s.storageAvailable = true ∧ s.togglePresent = true := by
  by_cases hsa : s.storageAvailable
  · by_cases htp : s.togglePresent
    · exact ⟨hsa, htp⟩
    · unfold setTheme storageSetItem updateToggleState at h
      simp [hsa, htp] at h
  · unfold setTheme storageSetItem at h
    simp [hsa] at h

lemma setTheme_eq_ok {v : String} {s s' : MState}
    (h : setTheme v s = .ok s') :
    s.storageAvailable = true ∧ s.togglePresent = true ∧
      s' = themedState v s := by
  obtain ⟨hsa, htp⟩ := setTheme_ok_flags h
  rw [setTheme_spec v s hsa htp] at h
  exact ⟨hsa, htp, (Except.ok.inj h).symm⟩

lemma themedState_idem (v : String) (s : MState) :
    themedState v (themedState v s) = themedState v s := by
  simp [themedState]


lemma nextTheme_mem (v : String) :
    nextTheme v = "light" ∨ nextTheme v = "dark" := by
  unfold nextTheme
  split
  · exact Or.inl rfl
  · exact Or.inr rfl

lemma nextTheme_ne_empty (v : String) : nextTheme v ≠ "" := by
  rcases nextTheme_mem v with h | h <;> rw [h] <;> decide

lemma toggleTheme_spec (s : MState) (hsa : s.storageAvailable = true)
    (htp : s.togglePresent = true) (hlp : s.labelPresent = true) :
    toggleTheme s = .ok (themedState (nextTheme s.currentTheme) s) := by
  unfold toggleTheme addToggleAnimation
  rw [setTheme_spec _ s hsa htp]
  simp [themedState, hlp]

lemma addToggleAnimation_id {t : MState} (h : t.labelPresent = true) :
    addToggleAnimation t = .ok t := by
  unfold addToggleAnimation; simp [h]

lemma toggleTheme_eq_ok {s s' : MState} (h : toggleTheme s = .ok s') :
    s.storageAvailable = true ∧ s.togglePresent = true ∧
      s.labelPresent = true ∧
      s' = themedState (nextTheme s.currentTheme) s := by
  unfold toggleTheme at h
  rcases h1 : setTheme (nextTheme s.currentTheme) s with e | s1
  · rw [h1] at h; dsimp only at h; cases h
  · rw [h1] at h; dsimp only at h
    obtain ⟨hsa, htp, rfl⟩ := setTheme_eq_ok h1
    by_cases hlp : s.labelPresent
    · rw [addToggleAnimation_id (by simp [themedState, hlp])] at h
      exact ⟨hsa, htp, hlp, (Except.ok.inj h).symm⟩
    · unfold addToggleAnimation at h
      simp [themedState, hlp] at h

lemma resolveInitialTheme_ne_empty (st : Option String) (os : Bool) :
    resolveInitialTheme st os ≠ "" := by
  rcases st with _ | v
  · unfold resolveInitialTheme jsOr
    rcases os <;> decide
  · unfold resolveInitialTheme jsOr
    dsimp only
    by_cases hv : v = ""
    · rw [if_pos hv]
      rcases os <;> decide
    · rw [if_neg hv]
      exact hv

lemma themeManagerNew_eq_ok {s s' : MState}
    (h : themeManagerNew s = .ok s') :
    s.storageAvailable = true ∧ s.togglePresent = true ∧
      s'.currentTheme = resolveInitialTheme s.storedTheme s.osPrefersDark ∧
      s'.storedTheme = some s'.currentTheme ∧
      s'.dataTheme = some s'.currentTheme ∧
      s'.storageAvailable = true ∧ s'.togglePresent = true ∧
      s'.labelPresent = s.labelPresent := by
  unfold themeManagerNew getStoredTheme at h
  by_cases hsa : s.storageAvailable
  · simp only [hsa, if_true] at h
    obtain ⟨hsa2, htp, rfl⟩ := setTheme_eq_ok h
    refine ⟨hsa, by simpa using htp, ?_, ?_, ?_, ?_, ?_, ?_⟩ <;>
      simp [themedState]
    · simpa using htp
  · simp [hsa] at h

lemma mediaChangeHandler_skip {b : Bool} {s : MState}
    (hsa : s.storageAvailable = true)
    (hts : jsTruthy s.storedTheme = true) :
    mediaChangeHandler b s = .ok s := by
  unfold mediaChangeHandler getStoredTheme
  simp [hsa, hts]

lemma osStep_good_fix {b : Bool} {t : MState} (hg : GoodStore t) :
    step (Event.osChange b) t = .ok { t with osPrefersDark := b } := by
  obtain ⟨hsa, hts⟩ := hg
  unfold step
  exact mediaChangeHandler_skip (by simpa using hsa) (by simpa using hts)

lemma step_preserves_good {e : Event} {t t' : MState} (hg : GoodStore t)
    (h : step e t = .ok t') : GoodStore t' := by
  cases e with
  | toggle =>
      obtain ⟨hsa, htp, hlp, rfl⟩ := toggleTheme_eq_ok h
      refine ⟨by simpa [themedState] using hsa, ?_⟩
      simp [themedState, jsTruthy, nextTheme_ne_empty]
  | osChange b =>
      rw [osStep_good_fix hg] at h
      obtain rfl := Except.ok.inj h
      obtain ⟨hsa, hts⟩ := hg
      exact ⟨by simpa using hsa, by simpa using hts⟩

lemma runEvents_preserves_good {evs : List Event} {t t' : MState}
    (hg : GoodStore t) (h : runEvents evs t = .ok t') : GoodStore t' := by
  induction evs generalizing t with
  | nil => unfold runEvents at h; obtain rfl := Except.ok.inj h; exact hg
  | cons e es ih =>
      unfold runEvents at h
      rcases h1 : step e t with err | t1
      · rw [h1] at h; cases h
      · rw [h1] at h
        exact ih (step_preserves_good hg h1) h

lemma runOs_good_fix {bs : List Bool} {t t' : MState} (hg : GoodStore t)
    (h : runEvents (bs.map Event.osChange) t = .ok t') :
    t'.currentTheme = t.currentTheme ∧ t'.storedTheme = t.storedTheme := by
  induction bs generalizing t with
  | nil => unfold runEvents at h; obtain rfl := Except.ok.inj h; exact ⟨rfl, rfl⟩
  | cons b bs ih =>
      rw [List.map_cons] at h
      unfold runEvents at h
      rw [osStep_good_fix hg] at h
      have hg2 : GoodStore { t with osPrefersDark := b } := by
        obtain ⟨hsa, hts⟩ := hg
        exact ⟨by simpa using hsa, by simpa using hts⟩
      obtain ⟨h1, h2⟩ := ih hg2 h
      exact ⟨h1, h2⟩

/-- C1: after any `setTheme v` (`applyTheme` in the spec) with
`v ∈ {light, dark}` that completes, all observable surfaces equal `v`:
the `data-theme` attribute is `v`, the value stored under key `"theme"`
is `v`, the in-memory `currentTheme` is `v`, the toggle is checked iff
`v` is dark, and the accessible label is `"Switch to light mode"` when
`v` is dark and `"Switch to dark mode"` when `v` is light. -/
theorem c1_applyTheme_consistency {s s' : MState} {v : String}
    (hv : v = "light" ∨ v = "dark") (h : setTheme v s = .ok s') :
    s'.dataTheme = some v ∧ s'.storedTheme = some v ∧
      s'.currentTheme = v ∧ (s'.toggleChecked = true ↔ v = "dark") ∧
      (v = "dark" → s'.toggleAriaLabel = some "Switch to light mode") ∧
      (v = "light" → s'.toggleAriaLabel = some "Switch to dark mode") := by
  obtain ⟨hsa, htp, rfl⟩ := setTheme_eq_ok h
  rcases hv with rfl | rfl <;> simp [themedState]

/-- Witness for C1 at `v = "dark"` on `baseState`. -/
theorem c1_witness :
    setTheme "dark" baseState = .ok (themedState "dark" baseState) ∧
    (themedState "dark" baseState).dataTheme = some "dark" ∧
    (themedState "dark" baseState).currentTheme = "dark" :=
  ⟨by decide,
   (@c1_applyTheme_consistency baseState (themedState "dark" baseState)
      "dark" (Or.inr rfl) (by decide)).1,
   (@c1_applyTheme_consistency baseState (themedState "dark" baseState)
      "dark" (Or.inr rfl) (by decide)).2.2.1⟩

/-- C2: initial theme resolution follows the precedence: a stored
`light`/`dark` value wins over the OS preference; with no stored value
the OS preference wins; with neither signal (no stored value, media
query not matching) the result is `light`. The resolution
(`resolveInitialTheme`, the constructor expression
`getStoredTheme() || getPreferredTheme()`) is a pure function, so it has
no side effects by construction. -/
theorem c2_resolveInitialTheme_precedence :
    (∀ v : String, (v = "light" ∨ v = "dark") → ∀ os : Bool,
        resolveInitialTheme (some v) os = v) ∧
    (∀ os : Bool,
        resolveInitialTheme none os = (if os then "dark" else "light")) ∧
    resolveInitialTheme none false = "light" ∧
    (∀ os : Bool, resolveInitialTheme (some "dark") os = "dark") := by
  refine ⟨?_, ?_, by decide, ?_⟩
  · rintro v (rfl | rfl) os <;> rcases os <;> decide
  · intro os; rcases os <;> decide
  · intro os; rcases os <;> decide

/-- Witness for C2: stored `"dark"` beats OS preference `light`, and
stored `"dark"` with OS preference `dark` also resolves to `"dark"`. -/
theorem c2_witness :
    (("dark" : String) = "light" ∨ ("dark" : String) = "dark") ∧
    resolveInitialTheme (some "dark") true = "dark" ∧
    resolveInitialTheme (some "dark") false = "dark" :=
  ⟨Or.inr rfl,
   c2_resolveInitialTheme_precedence.1 "dark" (Or.inr rfl) true,
   c2_resolveInitialTheme_precedence.1 "dark" (Or.inr rfl) false⟩

/-- C3: starting from a value in `{light, dark}`, toggling strictly
alternates: `nextTheme` (the value computed by `toggleTheme`) maps light
to dark and dark to light, composed with itself it is the identity on
the current value, no toggle leaves the value unchanged, and a
successful `toggleTheme` updates `currentTheme` to `nextTheme` of the
old value. -/
theorem c3_toggle_alternation (v : String)
    (hv : v = "light" ∨ v = "dark") :
    nextTheme "light" = "dark" ∧ nextTheme "dark" = "light" ∧
    nextTheme (nextTheme v) = v ∧
    (∀ w : String, nextTheme w ≠ w) ∧
    (∀ k : Nat, nextTheme^[2 * k] v = v) ∧
    (∀ k : Nat, nextTheme^[2 * k + 1] v = nextTheme v) ∧
    (∀ s s' : MState, s.currentTheme = v → toggleTheme s = .ok s' →
        s'.currentTheme = nextTheme v) := by
  have hdouble : nextTheme (nextTheme v) = v := by
    rcases hv with rfl | rfl <;> decide
  have hne : ∀ w : String, nextTheme w ≠ w := by
    intro w
    unfold nextTheme
    split
    · rename_i hw; rw [hw]; decide
    · rename_i hw; exact fun he => hw he.symm
  have hiter : ∀ k : Nat, nextTheme^[2 * k] v = v := by
    intro k
    induction k with
    | zero => rfl
    | succ n ih =>
        have h2 : 2 * (n + 1) = 2 * n + 1 + 1 := by ring
        rw [h2, Function.iterate_succ_apply', Function.iterate_succ_apply',
            ih, hdouble]
  refine ⟨by decide, by decide, hdouble, hne, hiter, ?_, ?_⟩
  · intro k; rw [Function.iterate_succ_apply', hiter k]
  · intro s s' hcur htog
    obtain ⟨_, _, _, rfl⟩ := toggleTheme_eq_ok htog
    simp [themedState, hcur]

/-- Witness for C3 at `v = "light"`: double toggle is the identity. -/
theorem c3_witness :
    (("light" : String) = "light" ∨ ("light" : String) = "dark") ∧
    nextTheme (nextTheme "light") = "light" :=
  ⟨Or.inl rfl, (c3_toggle_alternation "light" (Or.inl rfl)).2.2.1⟩

/-- C7: `setTheme` (`applyTheme`) is idempotent: a second call with the
same value, applied to the state the first call produced, yields exactly
that state again. -/
theorem c7_applyTheme_idempotent {v : String} {s s' : MState}
    (h : setTheme v s = .ok s') : setTheme v s' = .ok s' := by
  obtain ⟨hsa, htp, rfl⟩ := setTheme_eq_ok h
  rw [setTheme_spec v _ (by simp [themedState, hsa])
        (by simp [themedState, htp]),
      themedState_idem]

/-- Witness for C7 at `v = "dark"` on `baseState`. -/
theorem c7_witness :
    setTheme "dark" baseState = .ok (themedState "dark" baseState) ∧
    setTheme "dark" (themedState "dark" baseState) =
      .ok (themedState "dark" baseState) :=
  ⟨by decide,
   @c7_applyTheme_idempotent "dark" baseState (themedState "dark" baseState)
     (by decide)⟩

/-- C4: once an explicit toggle has occurred, every subsequent
OS-preference-change event leaves the current theme unchanged: from any
state reachable from the post-toggle state by further events, an OS
change only records the new media value and never calls `setTheme`,
because the toggle persisted a truthy stored value. -/
theorem c4_user_choice_precedence {s s' : MState}
    (h : toggleTheme s = .ok s') (evs : List Event) {t t' : MState}
    (b : Bool) (hrun : runEvents evs s' = .ok t)
    (hos : step (Event.osChange b) t = .ok t') :
    t' = { t with osPrefersDark := b } ∧
      t'.currentTheme = t.currentTheme := by
  have hg : GoodStore s' := by
    obtain ⟨hsa, htp, hlp, rfl⟩ := toggleTheme_eq_ok h
    exact ⟨by simp [themedState, hsa],
           by simp [themedState, jsTruthy, nextTheme_ne_empty]⟩
  have hgt : GoodStore t := runEvents_preserves_good hg hrun
  rw [osStep_good_fix hgt] at hos
  obtain rfl := Except.ok.inj hos
  exact ⟨rfl, rfl⟩

/-- Witness for C4: after one toggle on `baseState`, an OS change to
dark only updates the recorded media value and keeps the theme. -/
theorem c4_witness :
    toggleTheme baseState = .ok (themedState "dark" baseState) ∧
    step (Event.osChange true) (themedState "dark" baseState) =
      .ok { themedState "dark" baseState with osPrefersDark := true } ∧
    ({ themedState "dark" baseState with
        osPrefersDark := true }).currentTheme =
      (themedState "dark" baseState).currentTheme :=
  ⟨by decide, by decide,
   (@c4_user_choice_precedence baseState (themedState "dark" baseState)
      (by decide) [] (themedState "dark" baseState)
      { themedState "dark" baseState with osPrefersDark := true } true
      (by decide) (by decide)).2⟩

/-- C5: the spec — and the listener's own source comment, "Only applies
if user hasn't manually set a preference" — says that before any
explicit toggle an OS-preference-change event changes the current theme
to the new OS value. Evaluating the code on a fresh load (no stored
value, OS preference light): `init()` itself persists `"light"`, so the
subsequent OS change to dark finds a truthy stored value and is ignored;
the theme stays `"light"` instead of becoming `"dark"`. -/
theorem c5_os_change_ignored_before_toggle :
    Except.bind (themeManagerNew baseState)
        (runEvents [Event.osChange true]) =
      .ok { themedState "light" baseState with osPrefersDark := true } ∧
    ({ themedState "light" baseState with
        osPrefersDark := true }).currentTheme = "light" ∧
    ("light" : String) ≠ "dark" := by decide

/-- C6: with functional storage, initialization itself persists the
resolved theme: after a successful `new ThemeManager()` the stored value
equals the current theme, `getStoredTheme` returns it (never `null`),
the stored value stays truthy across every later event sequence, and
OS-preference-change events alone never change the current theme even
though the user has never toggled. -/
theorem c6_init_persists {s s' : MState}
    (h : themeManagerNew s = .ok s') :
    s'.storedTheme = some s'.currentTheme ∧
    getStoredTheme s' = .ok (some s'.currentTheme) ∧
    jsTruthy s'.storedTheme = true ∧
    (∀ evs : List Event, ∀ t : MState, runEvents evs s' = .ok t →
        jsTruthy t.storedTheme = true) ∧
    (∀ bs : List Bool, ∀ t : MState,
        runEvents (bs.map Event.osChange) s' = .ok t →
        t.currentTheme = s'.currentTheme) := by
  obtain ⟨hsa, htp, hcur, hst, hdt, hsa2, htp2, hlp⟩ :=
    themeManagerNew_eq_ok h
  have hne : s'.currentTheme ≠ "" := by
    rw [hcur]; exact resolveInitialTheme_ne_empty _ _
  have hts : jsTruthy s'.storedTheme = true := by
    rw [hst]; simp [jsTruthy, hne]
  have hg : GoodStore s' := ⟨hsa2, hts⟩
  refine ⟨hst, ?_, hts, ?_, ?_⟩
  · unfold getStoredTheme; simp [hsa2, hst]
  · intro evs t hr; exact (runEvents_preserves_good hg hr).2
  · intro bs t hr; exact (runOs_good_fix hg hr).1

/-- Witness for C6 on `baseState`. -/
theorem c6_witness :
    themeManagerNew baseState = .ok (themedState "light" baseState) ∧
    (themedState "light" baseState).storedTheme =
      some (themedState "light" baseState).currentTheme :=
  ⟨by decide,
   (@c6_init_persists baseState (themedState "light" baseState)
      (by decide)).1⟩

/-- C8 counterexample: with storage unavailable, storage access throws —
`getStoredTheme` does not behave as "absent", `setTheme` does not
silently drop the write, and the constructor propagates the error
instead of completing, contradicting the claim that every ThemeManager
operation completes without surfacing an error. -/
theorem c8_counterexample :
    getStoredTheme { baseState with storageAvailable := false } =
      .error .securityError ∧
    setTheme "dark" { baseState with storageAvailable := false } =
      .error .securityError ∧
    themeManagerNew { baseState with storageAvailable := false } =
      .error .securityError := by decide

/-- C8 amended: when persistent storage is unavailable or denied, the
code has no handling for it: `getStoredTheme` and every `setTheme` throw
the storage error, and the constructor propagates it (in the page it is
caught only by the top-level initialization try/catch), so the theme is
not applied for the session instead of degrading gracefully. -/
theorem c8_amended_storage_throws {s : MState}
    (h : s.storageAvailable = false) :
    getStoredTheme s = .error .securityError ∧
    (∀ v : String, setTheme v s = .error .securityError) ∧
    themeManagerNew s = .error .securityError := by
  refine ⟨?_, ?_, ?_⟩
  · unfold getStoredTheme; simp [h]
  · intro v; unfold setTheme storageSetItem; simp [h]
  · unfold themeManagerNew getStoredTheme; simp [h]

/-- Witness for C8 amended at a storage-denied `baseState`. -/
theorem c8_witness :
    ({ baseState with storageAvailable := false }).storageAvailable =
      false ∧
    themeManagerNew { baseState with storageAvailable := false } =
      .error .securityError :=
  ⟨rfl,
   (@c8_amended_storage_throws
      { baseState with storageAvailable := false } rfl).2.2⟩

/-- C9 counterexample: when the toggle widget element is absent, the
widget-sync step is not a no-op: `updateToggleState` throws a TypeError
(property assignment on `null`), so `setTheme` and `toggleTheme` fail,
contradicting the claim that theme operations still complete. -/
theorem c9_counterexample :
    updateToggleState { baseState with togglePresent := false } =
      .error .typeError ∧
    setTheme "dark" { baseState with togglePresent := false } =
      .error .typeError ∧
    toggleTheme { baseState with togglePresent := false } =
      .error .typeError := by decide

/-- C9 amended: under normal DOM availability (toggle widget and
animation label present) and functional storage, `toggleTheme` cannot
fail; but when the toggle widget is absent, the widget-sync step
(`updateToggleState`) throws a TypeError, so `setTheme` fails there
rather than treating the sync as a no-op. -/
theorem c9_amended_widget_sync {s : MState} (h1 : s.togglePresent = true)
    (h2 : s.labelPresent = true) (h3 : s.storageAvailable = true) :
    toggleTheme s = .ok (themedState (nextTheme s.currentTheme) s) ∧
    (∀ t : MState, ∀ v : String, t.togglePresent = false →
        updateToggleState t = .error .typeError ∧
        (t.storageAvailable = true →
          setTheme v t = .error .typeError)) := by
  refine ⟨toggleTheme_spec s h3 h1 h2, ?_⟩
  intro t v ht
  constructor
  · unfold updateToggleState; simp [ht]
  · intro hsa
    unfold setTheme storageSetItem updateToggleState
    simp [ht, hsa]

/-- Witness for C9 amended on `baseState` and a widget-less state. -/
theorem c9_witness :
    baseState.togglePresent = true ∧ baseState.labelPresent = true ∧
    baseState.storageAvailable = true ∧
    toggleTheme baseState =
      .ok (themedState (nextTheme baseState.currentTheme) baseState) ∧
    updateToggleState { baseState with togglePresent := false } =
      .error .typeError :=
  ⟨rfl, rfl, rfl,
   (@c9_amended_widget_sync baseState rfl rfl rfl).1,
   ((@c9_amended_widget_sync baseState rfl rfl rfl).2
      { baseState with togglePresent := false } "dark" rfl).1⟩

/-- C10 counterexample: a stored empty string is non-null but falsy, so
`getStoredTheme() || getPreferredTheme()` falls back to the OS
preference: with stored `""` and OS dark the initial current theme is
`"dark"`, not the stored string `""`. -/
theorem c10_counterexample :
    resolveInitialTheme (some "") true = "dark" ∧
    Except.map MState.currentTheme
        (themeManagerNew
          { baseState with storedTheme := some "",
                           osPrefersDark := true }) =
      .ok "dark" ∧
    ("dark" : String) ≠ "" := by decide

/-- C10 amended: the constructor adopts any non-null, non-empty stored
string as the current theme without validation (the empty string is
falsy under the JavaScript `||`, so it falls back to the OS preference);
`nextTheme` maps every value other than `"dark"` to `"dark"`, so after
one successful toggle the current value is always in {light, dark}. -/
theorem c10_amended_nonempty_adopted {s s' : MState} {str : String}
    (hst : s.storedTheme = some str) (hne : str ≠ "")
    (h : themeManagerNew s = .ok s') :
    s'.currentTheme = str ∧
    (∀ v : String, v ≠ "dark" → nextTheme v = "dark") ∧
    (∀ t t' : MState, toggleTheme t = .ok t' →
        t'.currentTheme = "light" ∨ t'.currentTheme = "dark") := by
  obtain ⟨hsa, htp, hcur, hrest⟩ := themeManagerNew_eq_ok h
  refine ⟨?_, ?_, ?_⟩
  · rw [hcur, hst]
    unfold resolveInitialTheme jsOr
    simp [hne]
  · intro v hv; unfold nextTheme; simp [hv]
  · intro t t' ht
    obtain ⟨_, _, _, rfl⟩ := toggleTheme_eq_ok ht
    rcases nextTheme_mem t.currentTheme with h1 | h1
    · left; simp [themedState, h1]
    · right; simp [themedState, h1]

/-- Witness for C10 amended with the non-{light,dark} stored string
`"weird"`. -/
theorem c10_witness :
    ({ baseState with storedTheme := some "weird" }).storedTheme =
      some "weird" ∧
    ("weird" : String) ≠ "" ∧
    themeManagerNew { baseState with storedTheme := some "weird" } =
      .ok (themedState "weird"
            { baseState with storedTheme := some "weird" }) ∧
    (themedState "weird"
        { baseState with storedTheme := some "weird" }).currentTheme =
      "weird" :=
  ⟨rfl, by decide, by decide,
   (@c10_amended_nonempty_adopted
      { baseState with storedTheme := some "weird" }
      (themedState "weird" { baseState with storedTheme := some "weird" })
      "weird" rfl (by decide) (by decide)).1⟩
